import Mathlib

/-!
Verification development for `src/app.py`, a FastAPI micro-benchmark that
issues the same HTTP GET request through three concurrency strategies
(thread pool, process pool, hybrid process-of-thread pools) and reports
wall-clock time alongside the fetched payloads.

Modelling conventions (shallow embedding):

* JSON values are the inductive `Json`.
* Failures raised inside Python code are values of `PyErr`
  (`transport` for httpx transport errors, `decode` for `response.json()`
  parse failures, `unpicklable` for serialization failures raised by a
  `ProcessPoolExecutor` when its submitted callable cannot be pickled).
* The network is an oracle `net : Nat → String → Except PyErr Response`:
  `net k url` is the outcome of the k-th `httpx.get(url)` call issued by
  one strategy invocation, where k is the submission index of the unit of
  work that performs the call (for the hybrid strategy, outer worker j's
  i-th inner call is call number `NUM_REQUESTS * j + i`).  Indexing the
  calls by submission order makes the per-call nondeterminism of the real
  network explicit while keeping the embedding pure.
* `list(executor.map(f, xs))` collects results in submission order and
  re-raises the first (in submission order) exception raised by a unit of
  work; `mapCollect` embeds exactly that contract.  A
  `ProcessPoolExecutor` additionally pickles the submitted callable; a
  callable that cannot be pickled (for example a lambda) makes the map
  raise a serialization error before any unit of work runs, and picklable
  results cross the process boundary unchanged, as stdlib pickling of
  JSON-like values is faithful.  `processExecutorMapResults` embeds that.
-/

/-- JSON values, the payloads `response.json()` produces in `fetch_data`
(src/app.py line 16). -/
inductive Json : Type where
  | null : Json
  | bool (b : Bool) : Json
  | num (n : Int) : Json
  | str (s : String) : Json
  | arr (elems : List Json) : Json
  | obj (fields : List (String × Json)) : Json

/-- Errors a strategy invocation can surface: httpx transport failures,
`response.json()` decode failures, and pickling failures raised by a
process pool whose callable cannot be serialized. -/
inductive PyErr : Type where
  | transport : PyErr
  | decode : PyErr
  | unpicklable : PyErr
deriving DecidableEq

/-- An HTTP response as `httpx.get` returns it: a status code plus the
outcome of parsing its body as JSON (`response.json()` either yields a
`Json` value or raises a decode error).  `httpx.get` itself never raises
on a 4xx/5xx status; it raises only transport errors, which the network
oracle reports directly. -/
structure Response : Type where
  status_code : Nat
  jsonBody : Except PyErr Json

/-- The network oracle: outcome of the k-th `httpx.get(url)` call of one
strategy invocation. -/
abbrev Net : Type := Nat → String → Except PyErr Response

/-- src/app.py line 10: the fixed target endpoint. -/
def URL : String := (r"https://jsonplaceholder.typicode.com/posts/1")

/-- src/app.py line 11: the fan-out count of the flat strategies. -/
def NUM_REQUESTS : Nat := 5

/-- src/app.py lines 14-16: `fetch_data(url)` performs one blocking
`httpx.get(url)` (the i-th network call of the invocation) and returns
`response.json()`, with no inspection of `response.status_code`. -/
def fetch_data (net : Net) (i : Nat) (url : String) : Except PyErr Json :=
  match net i url with
  | .error e => .error e
  | .ok response => response.jsonBody

/-- Result collection of `list(executor.map(g, xs))` (src/app.py lines 21,
27, 36): the i-th element of the returned list is the result of the unit
of work submitted for the i-th element of `xs`; iteration re-raises the
first exception in submission order.  The first argument of `g` is the
submission index of the unit. -/
def mapCollect {α β : Type} (g : Nat → α → Except PyErr β) :
    Nat → List α → Except PyErr (List β)
  | _, [] => .ok []
  | i, a :: as =>
    match g i a with
    | .error e => .error e
    | .ok b =>
      match mapCollect g (i + 1) as with
      | .error e => .error e
      | .ok bs => .ok (b :: bs)

/-- `list(executor.map(g, xs))` for a `ThreadPoolExecutor`: no
serialization is involved. -/
def executorMapResults {α β : Type} (g : Nat → α → Except PyErr β)
    (xs : List α) : Except PyErr (List β) :=
  mapCollect g 0 xs

/-- A Python callable as a `ProcessPoolExecutor` sees it: the pool must
pickle it to ship it to a worker process.  Module-level functions such as
`fetch_data` are picklable; lambdas and nested functions are not. -/
structure PyCallable (α β : Type) : Type where
  picklable : Bool
  call : Nat → α → Except PyErr β

/-- `list(executor.map(g, xs))` for a `ProcessPoolExecutor` (src/app.py
lines 27, 36): if the callable cannot be pickled the map raises a
serialization error before any unit of work runs; otherwise results cross
the process boundary unchanged (stdlib pickling of JSON-like values is
faithful) and collection behaves as for the thread pool. -/
def processExecutorMapResults {α β : Type} (g : PyCallable α β)
    (xs : List α) : Except PyErr (List β) :=
  if g.picklable then executorMapResults g.call xs
  else .error PyErr.unpicklable

/-- src/app.py lines 19-22: `threading_fetch()` maps `fetch_data` over
`[URL] * NUM_REQUESTS` on a `ThreadPoolExecutor` and returns the collected
list. -/
def threading_fetch (net : Net) : Except PyErr (List Json) :=
  executorMapResults (fun i url => fetch_data net i url)
    (List.replicate NUM_REQUESTS URL)

/-- The callable `multiprocessing_fetch` submits: the module-level
function `fetch_data`, which is picklable. -/
def fetchDataCallable (net : Net) : PyCallable String Json :=
  ⟨true, fun i url => fetch_data net i url⟩

/-- src/app.py lines 25-28: `multiprocessing_fetch()` maps `fetch_data`
over `[URL] * NUM_REQUESTS` on a `ProcessPoolExecutor`. -/
def multiprocessing_fetch (net : Net) : Except PyErr (List Json) :=
  processExecutorMapResults (fetchDataCallable net)
    (List.replicate NUM_REQUESTS URL)

/-- The slice of the network oracle seen by outer worker `j` of
`hybrid_fetch`: its i-th inner call is the invocation's call number
`NUM_REQUESTS * j + i`. -/
def hybridWorkerNet (net : Net) (j : Nat) : Net :=
  fun i url => net (NUM_REQUESTS * j + i) url

/-- The callable `hybrid_fetch` submits to its outer process pool
(src/app.py line 36): `lambda _: threading_fetch()`.  A lambda cannot be
pickled, so `picklable := false`; its body runs the full thread-pool
strategy and ignores its argument. -/
def hybridOuterCallable (net : Net) : PyCallable Nat (List Json) :=
  ⟨false, fun j _ => threading_fetch (hybridWorkerNet net j)⟩

/-- src/app.py lines 31-37: `hybrid_fetch()` maps
`lambda _: threading_fetch()` over `range(2)` on a
`ProcessPoolExecutor` and returns the collected list (a list of the two
inner result lists; line 37 performs no flattening).  The nested
`thread_worker` function on lines 32-33 is never referenced. -/
def hybrid_fetch (net : Net) : Except PyErr (List (List Json)) :=
  processExecutorMapResults (hybridOuterCallable net) (List.range 2)

/-- The value the collection step of `hybrid_fetch` (src/app.py line 36)
computes when the outer pool's serialization step is assumed to succeed:
the same map, without the pickling restriction.  Used to state what the
hybrid strategy would return if all outer work succeeded. -/
def hybrid_fetch_if_serializable (net : Net) :
    Except PyErr (List (List Json)) :=
  executorMapResults (hybridOuterCallable net).call (List.range 2)

/-- The `{execution_time, results}` envelope a timed route builds
(src/app.py lines 41-44 and alike): the two clock reads are passed in as
`t0`, `t1`; if the strategy raises, the exception propagates and no
envelope is built. -/
def timedEnvelope {ρ : Type} (t0 t1 : Rat) (r : Except PyErr ρ) :
    Except PyErr (Rat × ρ) :=
  match r with
  | .error e => .error e
  | .ok results => .ok (t1 - t0, results)

/-- src/app.py lines 39-44: the `/threading` route handler. -/
def threading_route (net : Net) (t0 t1 : Rat) :
    Except PyErr (Rat × List Json) :=
  timedEnvelope t0 t1 (threading_fetch net)

/-- src/app.py lines 46-51: the `/multiprocessing` route handler. -/
def multiprocessing_route (net : Net) (t0 t1 : Rat) :
    Except PyErr (Rat × List Json) :=
  timedEnvelope t0 t1 (multiprocessing_fetch net)

/-- src/app.py lines 53-58: the `/hybrid` route handler. -/
def hybrid_route (net : Net) (t0 t1 : Rat) :
    Except PyErr (Rat × List (List Json)) :=
  timedEnvelope t0 t1 (hybrid_fetch net)

/-- src/app.py lines 60-62: the `/health` route handler returns the
constant body and can raise nothing. -/
def health_check : Except PyErr Json :=
  .ok (Json.obj [((r"status"), Json.str (r"healthy"))])

/-- Events of one timed route invocation, used to state ordering claims
about clock reads and pool lifecycle. -/
inductive Event : Type where
  | clockStart : Event
  | poolCreate : Event
  | unitRun (i : Nat) : Event
  | poolTeardown : Event
  | clockEnd : Event
deriving DecidableEq

/-- Events of one `with ...PoolExecutor(...)` block: the pool is created
on entry and torn down on exit of the `with`, also when an exception is
propagating. -/
def executorTrace (unitEvents : List Event) : List Event :=
  Event.poolCreate :: unitEvents ++ [Event.poolTeardown]

/-- Events of a successful `threading_fetch()` call (src/app.py lines
20-22): pool creation, the `NUM_REQUESTS` units, pool teardown. -/
def threading_fetch_trace : List Event :=
  executorTrace ((List.range NUM_REQUESTS).map Event.unitRun)

/-- Events of a successful `multiprocessing_fetch()` call (src/app.py
lines 26-28): same shape as the thread-pool strategy. -/
def multiprocessing_fetch_trace : List Event :=
  executorTrace ((List.range NUM_REQUESTS).map Event.unitRun)

/-- Events of a `hybrid_fetch()` call (src/app.py lines 35-37): the outer
pool is created, the map raises its serialization error before any unit
of work starts, and the `with` block tears the pool down while the
exception propagates. -/
def hybrid_fetch_trace : List Event :=
  executorTrace []

/-- Events of a timed route (src/app.py lines 41-44 and alike):
`time.time()` is read before the strategy call; the second read happens
only if the strategy returns - on an exception the handler is abandoned
and no end timestamp is ever taken. -/
def timedRouteTrace (fetchTrace : List Event) (succeeds : Bool) :
    List Event :=
  Event.clockStart :: fetchTrace ++ (if succeeds then [Event.clockEnd] else [])

/-- Events of a `/threading` invocation whose strategy call succeeds or
fails according to `succeeds`. -/
def threading_route_trace (succeeds : Bool) : List Event :=
  timedRouteTrace threading_fetch_trace succeeds

/-- Events of a `/multiprocessing` invocation. -/
def multiprocessing_route_trace (succeeds : Bool) : List Event :=
  timedRouteTrace multiprocessing_fetch_trace succeeds

/-- Events of a `/hybrid` invocation: `hybrid_fetch` always raises, so
the route never reaches its second clock read. -/
def hybrid_route_trace : List Event :=
  timedRouteTrace hybrid_fetch_trace false

/-- Stub payload `{"id": 1}` used by concrete test scenarios. -/
def okBody : Json :=
  Json.obj [((r"id"), Json.num 1)]

/-- Stub network oracle: every call succeeds with status 200 and body
`{"id": 1}`. -/
def stubNet : Net :=
  fun _ _ => .ok ⟨200, .ok okBody⟩

/-- Stub network oracle: call number 3 fails with a transport error,
every other call succeeds. -/
def failNet : Net :=
  fun i _ => if i = 3 then .error PyErr.transport else .ok ⟨200, .ok okBody⟩

/-- Stub network oracle whose k-th call returns the JSON number k,
tagging every unit of work with its submission index. -/
def tagNet : Net :=
  fun i _ => .ok ⟨200, .ok (Json.num (Int.ofNat i))⟩

/-- The result set `tagNet` produces through either flat strategy. -/
def tagResults : List Json :=
  [Json.num 0, Json.num 1, Json.num 2, Json.num 3, Json.num 4]

/-- Stub error payload for a failed-lookup response body. -/
def errBody : Json :=
  Json.obj [((r"error"), Json.str (r"not found"))]

/-- Stub network oracle: every call yields an HTTP 500 response whose
body still parses as JSON. -/
def err500Net : Net :=
  fun _ _ => .ok ⟨500, .ok errBody⟩

/-- Helper: an element of a replicated list is the replicated value, and
its index is within the count. -/
theorem replicate_getElem?_inv {α : Type} (a : α) :
    ∀ (n k : Nat) (x : α), (List.replicate n a)[k]? = some x → x = a ∧ k < n := by
  intro n
  induction n with
  | zero => intro k x h; simp [List.replicate] at h
  | succ m ih =>
    intro k x h
    cases k with
    | zero =>
      rw [List.replicate_succ, List.getElem?_cons_zero] at h
      exact ⟨(Option.some.inj h).symm, by omega⟩
    | succ k' =>
      rw [List.replicate_succ, List.getElem?_cons_succ] at h
      obtain ⟨hx, hk⟩ := ih k' x h
      exact ⟨hx, by omega⟩

/-- Helper: every index below the count hits the replicated value. -/
theorem replicate_getElem?_of_lt {α : Type} (a : α) :
    ∀ (n k : Nat), k < n → (List.replicate n a)[k]? = some a := by
  intro n
  induction n with
  | zero => intro k hk; omega
  | succ m ih =>
    intro k hk
    cases k with
    | zero => rw [List.replicate_succ, List.getElem?_cons_zero]
    | succ k' =>
      rw [List.replicate_succ, List.getElem?_cons_succ]
      exact ih k' (by omega)

/-- Helper: a successful collection has one result per submitted unit. -/
theorem mapCollect_ok_length {α β : Type} (g : Nat → α → Except PyErr β) :
    ∀ (xs : List α) (i : Nat) (ys : List β),
      mapCollect g i xs = .ok ys → ys.length = xs.length := by
  intro xs
  induction xs with
  | nil =>
    intro i ys h
    simp only [mapCollect] at h
    cases h
    rfl
  | cons a as ih =>
    intro i ys h
    cases hg : g i a with
    | error e => simp [mapCollect, hg] at h
    | ok b =>
      cases hr : mapCollect g (i + 1) as with
      | error e => simp [mapCollect, hg, hr] at h
      | ok bs =>
        simp only [mapCollect, hg, hr] at h
        cases h
        simp [ih (i + 1) bs hr]

/-- Helper: in a successful collection the k-th result is the outcome of
the unit submitted for the k-th input, run at submission index `i + k`. -/
theorem mapCollect_ok_getElem? {α β : Type} (g : Nat → α → Except PyErr β) :
    ∀ (xs : List α) (i : Nat) (ys : List β),
      mapCollect g i xs = .ok ys →
      ∀ (k : Nat) (a : α), xs[k]? = some a →
        ∃ b, g (i + k) a = .ok b ∧ ys[k]? = some b := by
  intro xs
  induction xs with
  | nil => intro i ys _ k a hk; simp at hk
  | cons x as ih =>
    intro i ys h k a hk
    cases hg : g i x with
    | error e => simp [mapCollect, hg] at h
    | ok b =>
      cases hr : mapCollect g (i + 1) as with
      | error e => simp [mapCollect, hg, hr] at h
      | ok bs =>
        simp only [mapCollect, hg, hr] at h
        cases h
        cases k with
        | zero =>
          rw [List.getElem?_cons_zero] at hk
          cases hk
          exact ⟨b, hg, by rw [List.getElem?_cons_zero]⟩
        | succ k' =>
          rw [List.getElem?_cons_succ] at hk
          obtain ⟨b', hb', hy⟩ := ih (i + 1) bs hr k' a hk
          refine ⟨b', ?_, by rw [List.getElem?_cons_succ]; exact hy⟩
          have e : i + (k' + 1) = (i + 1) + k' := by omega
          rw [e]
          exact hb'

/-- Helper: if every submitted unit succeeds, the collection succeeds. -/
theorem mapCollect_ok_of_forall {α β : Type} (g : Nat → α → Except PyErr β) :
    ∀ (xs : List α) (i : Nat),
      (∀ (k : Nat) (a : α), xs[k]? = some a → ∃ b, g (i + k) a = .ok b) →
      ∃ ys, mapCollect g i xs = .ok ys := by
  intro xs
  induction xs with
  | nil => intro i _; exact ⟨[], rfl⟩
  | cons x as ih =>
    intro i h
    obtain ⟨b, hb⟩ := h 0 x (by rw [List.getElem?_cons_zero])
    have hb0 : g i x = .ok b := by simpa using hb
    have htail : ∀ (k : Nat) (a : α), as[k]? = some a →
        ∃ b', g ((i + 1) + k) a = .ok b' := by
      intro k a hk
      obtain ⟨b', hb'⟩ := h (k + 1) a (by rw [List.getElem?_cons_succ]; exact hk)
      refine ⟨b', ?_⟩
      have e : (i + 1) + k = i + (k + 1) := by omega
      rw [e]
      exact hb'
    obtain ⟨bs, hbs⟩ := ih (i + 1) htail
    exact ⟨b :: bs, by simp [mapCollect, hb0, hbs]⟩

/-- Helper: if the unit at index `k` fails and every earlier unit
succeeds, the collection raises exactly the failing unit's error. -/
theorem mapCollect_error_of_firstFail {α β : Type}
    (g : Nat → α → Except PyErr β) :
    ∀ (xs : List α) (i k : Nat) (a : α) (e : PyErr),
      xs[k]? = some a → g (i + k) a = .error e →
      (∀ (m : Nat) (a' : α), m < k → xs[m]? = some a' →
        ∃ b, g (i + m) a' = .ok b) →
      mapCollect g i xs = .error e := by
  intro xs
  induction xs with
  | nil => intro i k a e hk _ _; simp at hk
  | cons x as ih =>
    intro i k a e hk hfail hok
    cases k with
    | zero =>
      rw [List.getElem?_cons_zero] at hk
      cases hk
      have hx : g i x = .error e := by simpa using hfail
      simp [mapCollect, hx]
    | succ k' =>
      obtain ⟨b, hb⟩ := hok 0 x (by omega) (by rw [List.getElem?_cons_zero])
      have hb0 : g i x = .ok b := by simpa using hb
      rw [List.getElem?_cons_succ] at hk
      have hfail' : g ((i + 1) + k') a = .error e := by
        have e1 : (i + 1) + k' = i + (k' + 1) := by omega
        rw [e1]
        exact hfail
      have hok' : ∀ (m : Nat) (a' : α), m < k' → as[m]? = some a' →
          ∃ b', g ((i + 1) + m) a' = .ok b' := by
        intro m a' hm hm'
        obtain ⟨b', hb'⟩ := hok (m + 1) a' (by omega)
          (by rw [List.getElem?_cons_succ]; exact hm')
        refine ⟨b', ?_⟩
        have e2 : (i + 1) + m = i + (m + 1) := by omega
        rw [e2]
        exact hb'
      have htail := ih (i + 1) k' a e hk hfail' hok'
      simp [mapCollect, hb0, htail]

/-- Helper: the two flat strategies are the same function of the network
oracle; the process pool pickles the module-level `fetch_data`, which is
picklable, and faithful serialization leaves the collected results
untouched. -/
theorem multiprocessing_eq_threading (net : Net) :
    multiprocessing_fetch net = threading_fetch net := rfl

/-- Claim C3: for the two flat strategies, every invocation with fan-out
N = 5 against a Fetch Unit that always succeeds returns a Result Set of
length exactly N = 5. -/
theorem c3_flat_fanout_length (net : Net)
    (h : ∀ i : Nat, i < NUM_REQUESTS →
      ∃ j : Json, fetch_data net i URL = Except.ok j) :
    ∃ rs : List Json, threading_fetch net = Except.ok rs ∧
      multiprocessing_fetch net = Except.ok rs ∧ rs.length = 5 := by
  have hall : ∀ (k : Nat) (a : String),
      (List.replicate NUM_REQUESTS URL)[k]? = some a →
      ∃ b, (fun i url => fetch_data net i url) (0 + k) a = Except.ok b := by
    intro k a hk
    obtain ⟨ha, hkn⟩ := replicate_getElem?_inv URL NUM_REQUESTS k a hk
    subst ha
    obtain ⟨j, hj⟩ := h k hkn
    refine ⟨j, ?_⟩
    show fetch_data net (0 + k) URL = Except.ok j
    rw [Nat.zero_add]
    exact hj
  obtain ⟨ys, hys⟩ := mapCollect_ok_of_forall (fun i url => fetch_data net i url)
    (List.replicate NUM_REQUESTS URL) 0 hall
  have hlen := mapCollect_ok_length (fun i url => fetch_data net i url)
    (List.replicate NUM_REQUESTS URL) 0 ys hys
  refine ⟨ys, hys, ?_, ?_⟩
  · rw [multiprocessing_eq_threading]
    exact hys
  · rw [hlen, List.length_replicate]
    rfl

/-- Witness for C3 at the always-succeeding stub network. -/
theorem c3_flat_fanout_length_witness :
    ∃ rs : List Json, threading_fetch stubNet = Except.ok rs ∧
      multiprocessing_fetch stubNet = Except.ok rs ∧ rs.length = 5 :=
  c3_flat_fanout_length stubNet (fun _ _ => ⟨okBody, rfl⟩)

/-- Claim C4: for every flat-strategy invocation that succeeds, the
Result Set preserves submission order: if the i-th submitted unit of work
produces the result `tag i`, the i-th element of the returned Result Set
is `tag i`. -/
theorem c4_submission_order_preserved (net : Net) (tag : Nat → Json)
    (ys zs : List Json)
    (ht : threading_fetch net = Except.ok ys)
    (hm : multiprocessing_fetch net = Except.ok zs)
    (htag : ∀ i : Nat, i < NUM_REQUESTS →
      fetch_data net i URL = Except.ok (tag i))
    (i : Nat) (hi : i < NUM_REQUESTS) :
    ys[i]? = some (tag i) ∧ zs[i]? = some (tag i) := by
  have h1 : threading_fetch net = Except.ok zs := by
    rw [← multiprocessing_eq_threading]
    exact hm
  have hzy : zs = ys := (Except.ok.inj (ht.symm.trans h1)).symm
  have hx : (List.replicate NUM_REQUESTS URL)[i]? = some URL :=
    replicate_getElem?_of_lt URL NUM_REQUESTS i hi
  have hmc : mapCollect (fun i url => fetch_data net i url) 0
      (List.replicate NUM_REQUESTS URL) = Except.ok ys := ht
  obtain ⟨b, hb, hyb⟩ := mapCollect_ok_getElem?
    (fun i url => fetch_data net i url)
    (List.replicate NUM_REQUESTS URL) 0 ys hmc i URL hx
  have hb' : fetch_data net i URL = Except.ok b := by simpa using hb
  have hbt : tag i = b := Except.ok.inj ((htag i hi).symm.trans hb')
  exact ⟨by rw [hyb, hbt], by rw [hzy, hyb, hbt]⟩

/-- Witness for C4: with the index-echoing stub, the element at index 3
of the returned Result Set carries tag 3. -/
theorem c4_submission_order_preserved_witness :
    tagResults[3]? = some (Json.num 3) ∧ tagResults[3]? = some (Json.num 3) :=
  c4_submission_order_preserved tagNet (fun n => Json.num (Int.ofNat n))
    tagResults tagResults rfl rfl (fun _ _ => rfl) 3 (by decide)

/-- Claim C5: the Process-Pool Strategy satisfies the same observable
contract as the Thread-Pool Strategy: for every network oracle (in
particular every deterministic Fetch Unit) the two strategies return the
same value, the boundary crossing leaving the results' semantic content
unchanged. -/
theorem c5_process_pool_refines_thread_pool (net : Net) :
    multiprocessing_fetch net = threading_fetch net :=
  multiprocessing_eq_threading net

/-- Witness for C5 at the stub network. -/
theorem c5_process_pool_refines_thread_pool_witness :
    multiprocessing_fetch stubNet = threading_fetch stubNet :=
  c5_process_pool_refines_thread_pool stubNet

/-- Claim C9: `fetch_data` returns the parsed response body for every
response whose body parses as JSON, regardless of the HTTP status code;
a 4xx or 5xx response with a JSON body is a success result. -/
theorem c9_fetch_ignores_status (net : Net) (i : Nat) (url : String)
    (sc : Nat) (j : Json)
    (h : net i url = Except.ok ⟨sc, Except.ok j⟩) :
    fetch_data net i url = Except.ok j := by
  simp [fetch_data, h]

/-- Witness for C9: a 500 response with JSON body `{"error": ...}` is
reported as a success result by `fetch_data`. -/
theorem c9_fetch_ignores_status_witness :
    err500Net 0 URL = Except.ok ⟨500, Except.ok errBody⟩ ∧
    fetch_data err500Net 0 URL = Except.ok errBody :=
  ⟨rfl, c9_fetch_ignores_status err500Net 0 URL 500 errBody rfl⟩

/-- Claim C10: every invocation of `GET /health` returns exactly the body
`{"status": "healthy"}` and never fails, independent of any other state
or of the outcome of any strategy invocation (the handler consults
nothing at all). -/
theorem c10_health_constant :
    health_check = Except.ok (Json.obj [((r"status"), Json.str (r"healthy"))]) ∧
    ∀ e : PyErr, health_check ≠ Except.error e :=
  ⟨rfl, fun _ h => Except.noConfusion h⟩

/-- Claim C8: every invocation of `hybrid_fetch` fails: the callable it
submits to the outer process pool is a lambda, which cannot be pickled,
so the outer map raises for every input and `GET /hybrid` never produces
a success body. -/
theorem c8_hybrid_always_fails (net : Net) :
    hybrid_fetch net = Except.error PyErr.unpicklable ∧
    ∀ t0 t1 : Rat, hybrid_route net t0 t1 = Except.error PyErr.unpicklable :=
  ⟨rfl, fun _ _ => rfl⟩

/-- Witness for C8 at the always-succeeding stub network. -/
theorem c8_hybrid_always_fails_witness :
    hybrid_fetch stubNet = Except.error PyErr.unpicklable ∧
    ∀ t0 t1 : Rat, hybrid_route stubNet t0 t1 = Except.error PyErr.unpicklable :=
  c8_hybrid_always_fails stubNet

/-- Counterexample for Claim C1: with a stub network on which every fetch
succeeds with body `{"id": 1}`, the actual hybrid invocation does not
return any Result Set (its outer callable is an unpicklable lambda), and
the value its collection step computes when the serialization step is
assumed to succeed is the unflattened pair of the two inner Result Sets,
whose length is 2, not the claimed M * N = 10. -/
theorem c1_counterexample :
    hybrid_fetch stubNet = Except.error PyErr.unpicklable ∧
    hybrid_fetch_if_serializable stubNet
      = Except.ok [List.replicate 5 okBody, List.replicate 5 okBody] ∧
    ([List.replicate 5 okBody, List.replicate 5 okBody] :
      List (List Json)).length ≠ 2 * NUM_REQUESTS :=
  ⟨rfl, rfl, by decide⟩

/-- Claim C1 (amended): when the outer serialization step is assumed to
succeed and every one of the 2 x 5 fetches succeeds, the value the hybrid
collection step computes is the two-element list of the two inner
Thread-Pool Result Sets, in outer worker submission order, not flattened:
its length is M = 2, each inner Result Set has length N = 5, and only
their concatenation has length M * N = 10.  The actual invocation never
returns it: `hybrid_fetch` always fails with the serialization error. -/
theorem c1_hybrid_nested_resultset (net : Net)
    (h : ∀ k : Nat, k < 2 * NUM_REQUESTS →
      ∃ j : Json, fetch_data net k URL = Except.ok j) :
    ∃ inner0 inner1 : List Json,
      threading_fetch (hybridWorkerNet net 0) = Except.ok inner0 ∧
      threading_fetch (hybridWorkerNet net 1) = Except.ok inner1 ∧
      hybrid_fetch_if_serializable net = Except.ok [inner0, inner1] ∧
      inner0.length = NUM_REQUESTS ∧ inner1.length = NUM_REQUESTS ∧
      (inner0 ++ inner1).length = 2 * NUM_REQUESTS ∧
      hybrid_fetch net = Except.error PyErr.unpicklable := by
  have key : ∀ j : Nat,
      (∀ k : Nat, k < NUM_REQUESTS →
        ∃ jv : Json, fetch_data (hybridWorkerNet net j) k URL = Except.ok jv) →
      ∃ inn : List Json, threading_fetch (hybridWorkerNet net j) = Except.ok inn ∧
        inn.length = NUM_REQUESTS := by
    intro j hj
    have hall : ∀ (k : Nat) (a : String),
        (List.replicate NUM_REQUESTS URL)[k]? = some a →
        ∃ b, (fun i url => fetch_data (hybridWorkerNet net j) i url) (0 + k) a
          = Except.ok b := by
      intro k a hk
      obtain ⟨ha, hkn⟩ := replicate_getElem?_inv URL NUM_REQUESTS k a hk
      subst ha
      obtain ⟨jv, hjv⟩ := hj k hkn
      refine ⟨jv, ?_⟩
      show fetch_data (hybridWorkerNet net j) (0 + k) URL = Except.ok jv
      rw [Nat.zero_add]
      exact hjv
    obtain ⟨inn, hinn⟩ := mapCollect_ok_of_forall
      (fun i url => fetch_data (hybridWorkerNet net j) i url)
      (List.replicate NUM_REQUESTS URL) 0 hall
    refine ⟨inn, hinn, ?_⟩
    rw [mapCollect_ok_length _ _ 0 inn hinn, List.length_replicate]
  have h0 : ∀ k : Nat, k < NUM_REQUESTS →
      ∃ jv : Json, fetch_data (hybridWorkerNet net 0) k URL = Except.ok jv := by
    intro k hk
    obtain ⟨jv, hjv⟩ := h (NUM_REQUESTS * 0 + k) (by omega)
    refine ⟨jv, ?_⟩
    show fetch_data net (NUM_REQUESTS * 0 + k) URL = Except.ok jv
    exact hjv
  have h1 : ∀ k : Nat, k < NUM_REQUESTS →
      ∃ jv : Json, fetch_data (hybridWorkerNet net 1) k URL = Except.ok jv := by
    intro k hk
    obtain ⟨jv, hjv⟩ := h (NUM_REQUESTS * 1 + k) (by omega)
    refine ⟨jv, ?_⟩
    show fetch_data net (NUM_REQUESTS * 1 + k) URL = Except.ok jv
    exact hjv
  obtain ⟨inner0, ht0, hl0⟩ := key 0 h0
  obtain ⟨inner1, ht1, hl1⟩ := key 1 h1
  refine ⟨inner0, inner1, ht0, ht1, ?_, hl0, hl1, ?_, rfl⟩
  · have hr : hybrid_fetch_if_serializable net
        = mapCollect (fun (j : Nat) (_ : Nat) =>
            threading_fetch (hybridWorkerNet net j)) 0 [0, 1] := rfl
    rw [hr]
    simp only [mapCollect, ht0, ht1]
  · rw [List.length_append, hl0, hl1]
    omega

/-- Witness for the amended C1 at the always-succeeding stub network. -/
theorem c1_hybrid_nested_resultset_witness :
    ∃ inner0 inner1 : List Json,
      threading_fetch (hybridWorkerNet stubNet 0) = Except.ok inner0 ∧
      threading_fetch (hybridWorkerNet stubNet 1) = Except.ok inner1 ∧
      hybrid_fetch_if_serializable stubNet = Except.ok [inner0, inner1] ∧
      inner0.length = NUM_REQUESTS ∧ inner1.length = NUM_REQUESTS ∧
      (inner0 ++ inner1).length = 2 * NUM_REQUESTS ∧
      hybrid_fetch stubNet = Except.error PyErr.unpicklable :=
  c1_hybrid_nested_resultset stubNet (fun _ _ => ⟨okBody, rfl⟩)

/-- Counterexample for Claim C2: make exactly one of the hybrid
invocation's ten units of work fail (call number 3 raises a transport
error, every other call succeeds); the hybrid invocation does fail, but
with the outer pool's serialization error, not by propagating the failing
unit's transport error. -/
theorem c2_counterexample :
    fetch_data failNet 3 URL = Except.error PyErr.transport ∧
    (∀ i : Nat, i < 10 → i ≠ 3 → fetch_data failNet i URL = Except.ok okBody) ∧
    hybrid_fetch failNet = Except.error PyErr.unpicklable ∧
    PyErr.unpicklable ≠ PyErr.transport := by
  refine ⟨rfl, ?_, rfl, by decide⟩
  intro i hi hne
  interval_cases i
  all_goals first | rfl | exact absurd rfl hne

/-- Claim C2 (amended): if exactly one of the five units of work fails
while every other unit succeeds, each flat strategy fails as a whole with
exactly that unit's error, returning no partial Result Set.  The hybrid
invocation also fails as a whole and returns no partial Result Set, but
with the outer pool's serialization error, raised before any unit of work
runs, rather than the failing unit's own error. -/
theorem c2_single_failure_aborts (net : Net) (k : Nat) (e : PyErr)
    (hk : k < NUM_REQUESTS)
    (hfail : fetch_data net k URL = Except.error e)
    (hok : ∀ i : Nat, i < NUM_REQUESTS → i ≠ k →
      ∃ j : Json, fetch_data net i URL = Except.ok j) :
    threading_fetch net = Except.error e ∧
    multiprocessing_fetch net = Except.error e ∧
    hybrid_fetch net = Except.error PyErr.unpicklable := by
  have hth : threading_fetch net = Except.error e := by
    show mapCollect (fun i url => fetch_data net i url) 0
      (List.replicate NUM_REQUESTS URL) = Except.error e
    apply mapCollect_error_of_firstFail (fun i url => fetch_data net i url)
      (List.replicate NUM_REQUESTS URL) 0 k URL e
    · exact replicate_getElem?_of_lt URL NUM_REQUESTS k hk
    · show fetch_data net (0 + k) URL = Except.error e
      rw [Nat.zero_add]
      exact hfail
    · intro m a' hm hm'
      obtain ⟨ha', hmn⟩ := replicate_getElem?_inv URL NUM_REQUESTS m a' hm'
      subst ha'
      obtain ⟨j, hj⟩ := hok m hmn (by omega)
      refine ⟨j, ?_⟩
      show fetch_data net (0 + m) URL = Except.ok j
      rw [Nat.zero_add]
      exact hj
  refine ⟨hth, ?_, rfl⟩
  rw [multiprocessing_eq_threading]
  exact hth

/-- Witness for the amended C2: with call number 3 failing and all other
calls succeeding, both flat strategies abort with the transport error and
the hybrid strategy aborts with the serialization error. -/
theorem c2_single_failure_aborts_witness :
    threading_fetch failNet = Except.error PyErr.transport ∧
    multiprocessing_fetch failNet = Except.error PyErr.transport ∧
    hybrid_fetch failNet = Except.error PyErr.unpicklable :=
  c2_single_failure_aborts failNet 3 PyErr.transport (by decide) rfl
    (fun i hi hne => ⟨okBody, by
      have hi5 : i < 5 := by simpa [NUM_REQUESTS] using hi
      interval_cases i
      all_goals first | rfl | exact absurd rfl hne⟩)

/-- Counterexample for Claim C7: a `/hybrid` invocation (which always
fails) tears its pool down while no end timestamp is ever captured, so
the pool lifecycle is not bracketed by any reported duration - none is
reported at all. -/
theorem c7_counterexample :
    Event.clockEnd ∉ hybrid_route_trace ∧
    Event.poolTeardown ∈ hybrid_route_trace ∧
    Event.poolCreate ∈ hybrid_route_trace := by decide

/-- Claim C7 (amended): for every strategy invocation that succeeds and
hence reports a duration - possible only for the two flat routes, the
hybrid route always failing before its second clock read - the start
timestamp is captured before worker-pool creation and the end timestamp
after worker-pool teardown, so no part of pool lifecycle or unit
execution falls outside the measured interval; a failing invocation
captures no end timestamp at all. -/
theorem c7_success_duration_brackets_pool :
    (threading_route_trace true)[0]? = some Event.clockStart ∧
    (threading_route_trace true)[1]? = some Event.poolCreate ∧
    (threading_route_trace true)[7]? = some Event.poolTeardown ∧
    (threading_route_trace true)[8]? = some Event.clockEnd ∧
    (threading_route_trace true).length = 9 ∧
    (multiprocessing_route_trace true)[0]? = some Event.clockStart ∧
    (multiprocessing_route_trace true)[1]? = some Event.poolCreate ∧
    (multiprocessing_route_trace true)[7]? = some Event.poolTeardown ∧
    (multiprocessing_route_trace true)[8]? = some Event.clockEnd ∧
    (multiprocessing_route_trace true).length = 9 ∧
    hybrid_route_trace[0]? = some Event.clockStart ∧
    hybrid_route_trace[1]? = some Event.poolCreate ∧
    Event.clockEnd ∉ hybrid_route_trace := by decide
